import Mathlib

/-!
Shallow embedding of the PSE Dashboard service worker (src/sw.js).

The worker is event-driven: the host dispatches install, activate, fetch,
push, notificationclick, sync and message events.  We model a `Response`
as a record of status, status text, headers and body; a cache partition
as an association list from request keys (URL strings) to responses; and
the network as an oracle `String → Option Response`, where `none` means
the fetch threw (network failure) and `some r` a delivered response
(possibly with a non-ok status).  Each handler becomes a pure function
from its inputs to an outcome record that also logs which URLs were
fetched from the network and which messages were posted to clients, so
that claims about "network is never invoked" or "a message is broadcast"
are statable.
-/

namespace SW

/-- `CACHE_NAME` from sw.js: the static-asset partition name. -/
def CACHE_NAME : String := "pse-dashboard-v1"

/-- `API_CACHE_NAME` from sw.js: the API-data partition name. -/
def API_CACHE_NAME : String := "pse-api-cache-v1"

/-- `STATIC_ASSETS` from sw.js: URLs cached at install time. -/
def STATIC_ASSETS : List String :=
  ["/", "/index.html", "/manifest.json", "https://cdn.plot.ly/plotly-2.27.0.min.js"]

/-- A fetch `Response`: status code, status text, header list and body. -/
structure Response where
  status : Nat
  statusText : String
  headers : List (String × String)
  body : String
deriving DecidableEq

/-- `Response.ok` of the Fetch API: status in the range 200..299. -/
def Response.ok (r : Response) : Bool :=
  200 ≤ r.status && r.status ≤ 299

/-- `Response.clone`: in this model a response is a pure value, so a
clone is the same value. -/
def Response.clone (r : Response) : Response := r

/-- `headers.append(name, value)` on (a clone of) a response. -/
def Response.appendHeader (r : Response) (name value : String) : Response :=
  { r with headers := r.headers ++ [(name, value)] }

/-- A cache partition: an association list from request keys to responses. -/
abbrev Cache := List (String × Response)

/-- `cache.match(request)`: look the key up in the partition. -/
def cacheMatch (c : Cache) (key : String) : Option Response :=
  List.lookup key c

/-- `cache.put(request, response)`: store under the key, replacing any
previous entry for the same key. -/
def cachePut (c : Cache) (key : String) (r : Response) : Cache :=
  (key, r) :: c.filter (fun e => e.1 != key)

/-- The global `caches` storage: named partitions. -/
abbrev CacheStorage := List (String × Cache)

/-- `caches.open(name)`: the named partition, or a fresh empty one. -/
def cachesOpen (s : CacheStorage) (name : String) : Cache :=
  (List.lookup name s).getD []

/-- Write a (possibly updated) partition back under its name. -/
def cachesSet (s : CacheStorage) (name : String) (c : Cache) : CacheStorage :=
  (name, c) :: s.filter (fun e => e.1 != name)

/-- `caches.delete(name)`: remove the named partition. -/
def cachesDelete (s : CacheStorage) (name : String) : CacheStorage :=
  s.filter (fun e => e.1 != name)

/-- The network, as an oracle from request URL to outcome: `none` models
`fetch` throwing (offline), `some r` a delivered response. -/
structure Network where
  fetchFn : String → Option Response

/-- A request as the fetch listener sees it: its URL, the hostname parsed
from that URL, and its destination (`"document"` for navigations). -/
structure Request where
  url : String
  hostname : String
  destination : String

/-- Outcome of a fetch handler: the response given to the caller, the
updated partition, and the list of URLs fetched from the network. -/
structure FetchOutcome where
  response : Response
  cache : Cache
  fetched : List String
deriving DecidableEq

/-- The synthesized JSON error body of `handleApiRequest` (sw.js lines
98-103): `JSON.stringify` of the object literal. -/
def offlineJsonBody : String :=
  "\x7b\"error\":\"Brak połączenia internetowego\",\"message\":\"Nie można pobrać danych. Sprawdź połączenie internetowe.\",\"cached\":false\x7d"

/-- The synthesized 503 response of `handleApiRequest` when the network
failed and the cache is empty (sw.js lines 98-112). -/
def apiErrorResponse : Response :=
  { status := 503
    statusText := "Service Unavailable"
    headers := [("Content-Type", "application/json"), ("X-Served-From", "error")]
    body := offlineJsonBody }

/-- `handleApiRequest` (sw.js lines 66-114): network first; on an ok
response store a clone under the request key and return the live
response; a non-ok response is returned unstored; on network failure
serve the cached entry with an `X-Served-From: cache` header appended to
a clone, or the synthesized 503 JSON error. -/
def handleApiRequest (net : Network) (cache : Cache) (requestUrl : String) : FetchOutcome :=
  match net.fetchFn requestUrl with
  | some networkResponse =>
      if networkResponse.ok then
        { response := networkResponse
          cache := cachePut cache requestUrl networkResponse.clone
          fetched := [requestUrl] }
      else
        { response := networkResponse, cache := cache, fetched := [requestUrl] }
  | none =>
      match cacheMatch cache requestUrl with
      | some cachedResponse =>
          { response := cachedResponse.clone.appendHeader "X-Served-From" "cache"
            cache := cache
            fetched := [requestUrl] }
      | none =>
          { response := apiErrorResponse, cache := cache, fetched := [requestUrl] }

/-- The title tag of the hardcoded offline page (sw.js line 148). -/
def offlineTitleTag : String := "<title>PSE Dashboard - Offline</title>"

/-- The segment of the offline-page template literal before its title
tag (sw.js lines 142-148). -/
def offlineHtmlTitlePre : String :=
  "\n                <!DOCTYPE html>\n                <html>\n                <head>\n                    <meta charset=\"UTF-8\">\n                    <meta name=\"viewport\" content=\"width=device-width, initial-scale=1.0\">\n                    "

/-- The segment of the offline-page template literal after its title tag
(sw.js lines 148-183). -/
def offlineHtmlTitleSuf : String :=
  "\n                    <style>\n                        body \x7b\n                            font-family: -apple-system, BlinkMacSystemFont, \x27SF Pro Display\x27, sans-serif;\n                            background: linear-gradient(135deg, #c0392b 0%, #e74c3c 100%);\n                            color: white;\n                            text-align: center;\n                            padding: 50px 20px;\n                            margin: 0;\n                            min-height: 100vh;\n                            display: flex;\n                            flex-direction: column;\n                            justify-content: center;\n                        \x7d\n                        h1 \x7b font-size: 24px; margin-bottom: 20px; \x7d\n                        p \x7b font-size: 16px; margin-bottom: 30px; opacity: 0.9; \x7d\n                        button \x7b\n                            background: white;\n                            color: #c0392b;\n                            border: none;\n                            padding: 12px 24px;\n                            border-radius: 8px;\n                            font-size: 16px;\n                            font-weight: 600;\n                            cursor: pointer;\n                        \x7d\n                    </style>\n                </head>\n                <body>\n                    <h1>📱 PSE Dashboard</h1>\n                    <h2>🔌 Tryb Offline</h2>\n                    <p>Nie można połączyć się z internetem.<br>Sprawdź połączenie i spróbuj ponownie.</p>\n                    <button onclick=\"window.location.reload()\">🔄 Spróbuj ponownie</button>\n                </body>\n                </html>\n            "

/-- The hardcoded offline HTML page of `handleStaticRequest` (sw.js lines
142-183): the content of the template literal, assembled from its three
consecutive segments. -/
def offlineHtml : String :=
  offlineHtmlTitlePre ++ offlineTitleTag ++ offlineHtmlTitleSuf

/-- The offline-page response (`new Response(html, \x7bheaders: ...\x7d)`):
default status 200, one Content-Type header. -/
def offlineHtmlResponse : Response :=
  { status := 200, statusText := "", headers := [("Content-Type", "text/html")], body := offlineHtml }

/-- The plain 503 for failed non-document static requests (sw.js line 189). -/
def staticErrorResponse : Response :=
  { status := 503, statusText := "", headers := [], body := "Service Unavailable" }

/-- `handleStaticRequest` (sw.js lines 117-191): cache first; on a hit
return the cached response with no network fetch; on a miss fetch, store
an ok response and return it; on network failure return the offline HTML
page for documents and a plain 503 otherwise. -/
def handleStaticRequest (net : Network) (cache : Cache) (request : Request) : FetchOutcome :=
  match cacheMatch cache request.url with
  | some cachedResponse =>
      { response := cachedResponse, cache := cache, fetched := [] }
  | none =>
      match net.fetchFn request.url with
      | some networkResponse =>
          if networkResponse.ok then
            { response := networkResponse
              cache := cachePut cache request.url networkResponse.clone
              fetched := [request.url] }
          else
            { response := networkResponse, cache := cache, fetched := [request.url] }
      | none =>
          if request.destination == "document" then
            { response := offlineHtmlResponse, cache := cache, fetched := [request.url] }
          else
            { response := staticErrorResponse, cache := cache, fetched := [request.url] }

/-- The fetch listener (sw.js lines 53-63): requests whose URL hostname
is `api.raporty.pse.pl` go to `handleApiRequest` against the API
partition; every other request goes to `handleStaticRequest` against the
static partition.  Returns the response, the updated storage and the
fetched URLs. -/
def fetchListener (net : Network) (s : CacheStorage) (request : Request) :
    Response × CacheStorage × List String :=
  if request.hostname == "api.raporty.pse.pl" then
    let out := handleApiRequest net (cachesOpen s API_CACHE_NAME) request.url
    (out.response, cachesSet s API_CACHE_NAME out.cache, out.fetched)
  else
    let out := handleStaticRequest net (cachesOpen s CACHE_NAME) request
    (out.response, cachesSet s CACHE_NAME out.cache, out.fetched)

/-- One step of the activate cleanup (the body of the callback mapped
over `cacheNames`, sw.js lines 38-43): delete the partition unless its
name is one of the two current names. -/
def activateStep (acc : CacheStorage) (cacheName : String) : CacheStorage :=
  if cacheName != CACHE_NAME && cacheName != API_CACHE_NAME then
    cachesDelete acc cacheName
  else acc

/-- The activate listener (sw.js lines 32-50): enumerate all existing
partition names (`caches.keys()`) and delete each one that is neither
`CACHE_NAME` nor `API_CACHE_NAME`. -/
def activateListener (s : CacheStorage) : CacheStorage :=
  (s.map Prod.fst).foldl activateStep s

/-- An action offered on a notification (`action` id and `title`). -/
structure NotificationAction where
  action : String
  title : String
deriving DecidableEq

/-- The notification options built by the push listener (sw.js lines
199-217); the `body` and `url` fields of the push payload are optional. -/
structure NotificationOptions where
  body : String
  icon : String
  badge : String
  vibrate : List Nat
  dataUrl : String
  actions : List NotificationAction
deriving DecidableEq

/-- The push listener (sw.js lines 194-223): options for the shown
notification, with defaults for an absent payload `body` or `url`. -/
def pushOptions (payloadBody : Option String) (payloadUrl : Option String) : NotificationOptions :=
  { body := payloadBody.getD "Nowy alert rezerw mocy!"
    icon := "/apple-touch-icon-180x180.png"
    badge := "/apple-touch-icon-180x180.png"
    vibrate := [100, 50, 100]
    dataUrl := payloadUrl.getD "/"
    actions := [{ action := "open", title := "Otwórz Dashboard" },
                { action := "close", title := "Zamknij" }] }

/-- Outcome of a notification click: whether the notification was closed
and which URL (if any) a window was opened to. -/
structure ClickOutcome where
  notificationClosed : Bool
  openedWindow : Option String
deriving DecidableEq

/-- The notificationclick listener (sw.js lines 226-237): always close
the notification; if the action is `"open"` or the default empty action,
open a window to `notification.data.url` or `/` when absent. -/
def notificationClickListener (action : String) (dataUrl : Option String) : ClickOutcome :=
  { notificationClosed := true
    openedWindow :=
      if action == "open" || action == "" then some (dataUrl.getD "/") else none }

/-- A message posted to a client page (`postMessage` payload). -/
structure PostedMessage where
  type : String
  message : String
deriving DecidableEq

/-- The `DATA_UPDATED` broadcast payload (sw.js lines 263-266). -/
def dataUpdatedMessage : PostedMessage :=
  { type := "DATA_UPDATED", message := "Dane zostały zaktualizowane w tle" }

/-- The fixed endpoint of the background refresh (sw.js line 253). -/
def pseEndpoint : String := "https://api.raporty.pse.pl/api/pk5l-wp?$first=200"

/-- Outcome of a sync event: the API partition afterwards, the URLs
fetched, and the messages posted (one per client, with the client id). -/
structure SyncOutcome where
  cache : Cache
  fetched : List String
  posted : List (String × PostedMessage)
deriving DecidableEq

/-- `refreshDataInBackground` (sw.js lines 249-272): one fetch of the
fixed endpoint; when it returns an ok response, store a clone under the
fixed key and post `DATA_UPDATED` to every client; a non-ok response or
a thrown error is swallowed with no store and no broadcast. -/
def refreshDataInBackground (net : Network) (cache : Cache) (clientsList : List String) :
    SyncOutcome :=
  match net.fetchFn pseEndpoint with
  | some response =>
      if response.ok then
        { cache := cachePut cache pseEndpoint response.clone
          fetched := [pseEndpoint]
          posted := clientsList.map (fun c => (c, dataUpdatedMessage)) }
      else
        { cache := cache, fetched := [pseEndpoint], posted := [] }
  | none =>
      { cache := cache, fetched := [pseEndpoint], posted := [] }

/-- The sync listener (sw.js lines 240-246): only the `refresh-data` tag
triggers the background refresh. -/
def syncListener (net : Network) (cache : Cache) (clientsList : List String) (tag : String) :
    SyncOutcome :=
  if tag == "refresh-data" then refreshDataInBackground net cache clientsList
  else { cache := cache, fetched := [], posted := [] }

/-- The `data` carried by a message event from a page. -/
structure MessageData where
  type : String
deriving DecidableEq

/-- Outcome of the message listener: whether `skipWaiting` was invoked
and which sync tags were registered. -/
structure MessageOutcome where
  skipWaitingCalled : Bool
  syncRegistered : List String
deriving DecidableEq

/-- The message listener (sw.js lines 275-286): `SKIP_WAITING` invokes
`skipWaiting`; `REQUEST_UPDATE` registers the `refresh-data` sync tag. -/
def messageListener (data : Option MessageData) : MessageOutcome :=
  { skipWaitingCalled :=
      match data with
      | some d => d.type == "SKIP_WAITING"
      | none => false
    syncRegistered :=
      match data with
      | some d => if d.type == "REQUEST_UPDATE" then ["refresh-data"] else []
      | none => [] }

/-- The invariant of claim C10: every entry of a partition holds a
response that was ok when stored. -/
def cacheAllOk (c : Cache) : Prop := ∀ e ∈ c, e.2.ok = true

/-- A sample ok API response, used to instantiate witnesses. -/
def sampleOkResponse : Response :=
  { status := 200, statusText := "OK", headers := [], body := "sample" }

/-- A sample non-ok response. -/
def sampleNotFoundResponse : Response :=
  { status := 404, statusText := "Not Found", headers := [], body := "missing" }

/-- A network oracle that always delivers `sampleOkResponse`. -/
def netAlwaysOk : Network := { fetchFn := fun _ => some sampleOkResponse }

/-- A network oracle that always fails (offline). -/
def netOffline : Network := { fetchFn := fun _ => none }

/-- A network oracle that always delivers `sampleNotFoundResponse`. -/
def netAlwaysNotFound : Network := { fetchFn := fun _ => some sampleNotFoundResponse }

/-- A sample request to the external API host. -/
def sampleApiRequest : Request :=
  { url := "https://api.raporty.pse.pl/api/pk5l-wp?$first=200"
    hostname := "api.raporty.pse.pl"
    destination := "" }

/-- A sample static-asset request for the top-level document. -/
def sampleDocRequest : Request :=
  { url := "/", hostname := "dashboard.example", destination := "document" }

/-- `s` contains `pattern` as a contiguous substring. -/
def containsText (s pattern : String) : Prop :=
  ∃ pre suf, s = pre ++ pattern ++ suf

/-- C1: for a request whose URL hostname is the external API host, if the
network fetch succeeds with an ok status, `handleApiRequest` returns the
live network response and stores a clone of it in the API partition under
the same request key, so it is subsequently retrievable there. -/
theorem c1_api_network_success_stored_and_returned
    (net : Network) (s : CacheStorage) (request : Request) (networkResponse : Response)
    (hhost : request.hostname = "api.raporty.pse.pl")
    (hfetch : net.fetchFn request.url = some networkResponse)
    (hok : networkResponse.ok = true) :
    (fetchListener net s request).1 = networkResponse ∧
    cacheMatch (cachesOpen (fetchListener net s request).2.1 API_CACHE_NAME) request.url
      = some networkResponse.clone := by
  simp [fetchListener, hhost, handleApiRequest, hfetch, hok, cachesOpen, cachesSet,
    cacheMatch, cachePut, List.lookup]

/-- Witness for C1 at a concrete network, storage and request. -/
theorem c1_witness :
    (fetchListener netAlwaysOk [] sampleApiRequest).1 = sampleOkResponse ∧
    cacheMatch (cachesOpen (fetchListener netAlwaysOk [] sampleApiRequest).2.1 API_CACHE_NAME)
      sampleApiRequest.url = some sampleOkResponse.clone :=
  c1_api_network_success_stored_and_returned netAlwaysOk [] sampleApiRequest sampleOkResponse
    rfl rfl (by decide)

/-- C2: for a static-asset request (not routed to the API host), a hit in
the static partition is returned as-is and the network is never invoked. -/
theorem c2_static_cache_hit_no_network
    (net : Network) (s : CacheStorage) (request : Request) (cachedResponse : Response)
    (hhost : request.hostname ≠ "api.raporty.pse.pl")
    (hhit : cacheMatch (cachesOpen s CACHE_NAME) request.url = some cachedResponse) :
    (fetchListener net s request).1 = cachedResponse ∧
    (fetchListener net s request).2.2 = [] := by
  have hb : (request.hostname == "api.raporty.pse.pl") = false := by
    simp [hhost]
  simp [fetchListener, hb, handleStaticRequest, hhit]

/-- Witness for C2 at a concrete storage holding the document. -/
theorem c2_witness :
    (fetchListener netAlwaysOk [(CACHE_NAME, [("/", sampleOkResponse)])] sampleDocRequest).1
      = sampleOkResponse ∧
    (fetchListener netAlwaysOk [(CACHE_NAME, [("/", sampleOkResponse)])] sampleDocRequest).2.2
      = [] :=
  c2_static_cache_hit_no_network netAlwaysOk [(CACHE_NAME, [("/", sampleOkResponse)])]
    sampleDocRequest sampleOkResponse (by decide) (by decide)

/-- C3: for an API-host request, if the network fetch fails and the API
partition holds an entry for the key, `handleApiRequest` returns that
cached response (a clone) carrying the `X-Served-From: cache` header. -/
theorem c3_api_network_fail_cache_hit_marked
    (net : Network) (s : CacheStorage) (request : Request) (cachedResponse : Response)
    (hhost : request.hostname = "api.raporty.pse.pl")
    (hfetch : net.fetchFn request.url = none)
    (hhit : cacheMatch (cachesOpen s API_CACHE_NAME) request.url = some cachedResponse) :
    (fetchListener net s request).1
      = cachedResponse.clone.appendHeader "X-Served-From" "cache" ∧
    ("X-Served-From", "cache") ∈ (fetchListener net s request).1.headers := by
  have h1 : (fetchListener net s request).1
      = cachedResponse.clone.appendHeader "X-Served-From" "cache" := by
    simp [fetchListener, hhost, handleApiRequest, hfetch, hhit]
  refine ⟨h1, ?_⟩
  rw [h1]
  simp [Response.appendHeader, Response.clone]

/-- Witness for C3 at a concrete offline network and prefilled partition. -/
theorem c3_witness :
    (fetchListener netOffline [(API_CACHE_NAME, [(sampleApiRequest.url, sampleOkResponse)])]
        sampleApiRequest).1
      = sampleOkResponse.clone.appendHeader "X-Served-From" "cache" ∧
    ("X-Served-From", "cache") ∈
      (fetchListener netOffline [(API_CACHE_NAME, [(sampleApiRequest.url, sampleOkResponse)])]
        sampleApiRequest).1.headers :=
  c3_api_network_fail_cache_hit_marked netOffline
    [(API_CACHE_NAME, [(sampleApiRequest.url, sampleOkResponse)])]
    sampleApiRequest sampleOkResponse rfl rfl (by decide)

set_option maxRecDepth 8192 in
/-- C4: for an API-host request, if the network fetch fails and the API
partition has no entry for the key, `handleApiRequest` returns the fixed
synthesized response: status 503 with a JSON body containing the field
`cached: false` and the fixed bilingual error text. -/
theorem c4_api_network_fail_no_cache_503
    (net : Network) (s : CacheStorage) (request : Request)
    (hhost : request.hostname = "api.raporty.pse.pl")
    (hfetch : net.fetchFn request.url = none)
    (hmiss : cacheMatch (cachesOpen s API_CACHE_NAME) request.url = none) :
    (fetchListener net s request).1 = apiErrorResponse ∧
    (fetchListener net s request).1.status = 503 ∧
    "\"cached\":false".toList <:+: (fetchListener net s request).1.body.toList := by
  have h1 : (fetchListener net s request).1 = apiErrorResponse := by
    simp [fetchListener, hhost, handleApiRequest, hfetch, hmiss]
  rw [h1]
  exact ⟨rfl, rfl, by decide⟩

/-- Witness for C4 at a concrete offline network and empty storage. -/
theorem c4_witness :
    (fetchListener netOffline [] sampleApiRequest).1 = apiErrorResponse ∧
    (fetchListener netOffline [] sampleApiRequest).1.status = 503 ∧
    "\"cached\":false".toList <:+: (fetchListener netOffline [] sampleApiRequest).1.body.toList :=
  c4_api_network_fail_no_cache_503 netOffline [] sampleApiRequest rfl rfl rfl

/-- Helper for C5: after folding the cleanup step over a name list that
covers every non-current name still present, only current names remain. -/
theorem activate_foldl_only_current (ns : List String) :
    ∀ acc : CacheStorage,
      (∀ e ∈ acc, e.1 ≠ CACHE_NAME → e.1 ≠ API_CACHE_NAME → e.1 ∈ ns) →
      ∀ e ∈ List.foldl activateStep acc ns, e.1 = CACHE_NAME ∨ e.1 = API_CACHE_NAME := by
  induction ns with
  | nil =>
      intro acc hacc e he
      simp only [List.foldl_nil] at he
      by_cases h1 : e.1 = CACHE_NAME
      · exact Or.inl h1
      by_cases h2 : e.1 = API_CACHE_NAME
      · exact Or.inr h2
      exact absurd (hacc e he h1 h2) (List.not_mem_nil _)
  | cons n tl ih =>
      intro acc hacc e he
      simp only [List.foldl_cons] at he
      refine ih (activateStep acc n) ?_ e he
      intro e' he' h1 h2
      by_cases hn : (n != CACHE_NAME && n != API_CACHE_NAME) = true
      · have hstep : activateStep acc n = cachesDelete acc n := by
          simp only [activateStep, hn, if_true]
        rw [hstep, cachesDelete] at he'
        obtain ⟨hmem, hne⟩ := List.mem_filter.mp he'
        have hne' : e'.1 ≠ n := by simpa using hne
        rcases List.mem_cons.mp (hacc e' hmem h1 h2) with h | h
        · exact absurd h hne'
        · exact h
      · have hcur : n = CACHE_NAME ∨ n = API_CACHE_NAME := by
          by_contra hcon
          push_neg at hcon
          exact hn (by simp [bne_iff_ne, hcon.1, hcon.2])
        have hstep : activateStep acc n = acc := by
          simp only [activateStep, if_neg hn]
        rw [hstep] at he'
        rcases List.mem_cons.mp (hacc e' he' h1 h2) with h | h
        · exfalso
          rcases hcur with hc | hc
          · exact h1 (h.trans hc)
          · exact h2 (h.trans hc)
        · exact h

/-- C5: after the activate handler runs, every partition that remains
bears one of the two current names; every other partition existing at
activate time has been deleted. -/
theorem c5_activate_only_current_partitions
    (s : CacheStorage) (entry : String × Cache) (hmem : entry ∈ activateListener s) :
    entry.1 = CACHE_NAME ∨ entry.1 = API_CACHE_NAME := by
  refine activate_foldl_only_current (s.map Prod.fst) s ?_ entry hmem
  intro e he h1 h2
  exact List.mem_map_of_mem Prod.fst he

/-- Witness for C5 at a concrete storage holding a current and a stale
partition. -/
theorem c5_witness :
    (CACHE_NAME, ([] : Cache)) ∈ activateListener [(CACHE_NAME, []), ("pse-dashboard-v0", [])] ∧
    ((CACHE_NAME, ([] : Cache)).1 = CACHE_NAME ∨
      (CACHE_NAME, ([] : Cache)).1 = API_CACHE_NAME) :=
  ⟨by decide, c5_activate_only_current_partitions
    [(CACHE_NAME, []), ("pse-dashboard-v0", [])] (CACHE_NAME, []) (by decide)⟩

set_option maxRecDepth 40000 in
/-- C6: for a top-level document request that misses the static partition
and whose network fetch fails, `handleStaticRequest` returns the fixed
offline HTML page: its body contains the marker title tag
`<title>PSE Dashboard - Offline</title>` and its Content-Type is
text/html. -/
theorem c6_document_offline_page
    (net : Network) (cache : Cache) (request : Request)
    (hdoc : request.destination = "document")
    (hmiss : cacheMatch cache request.url = none)
    (hfetch : net.fetchFn request.url = none) :
    (handleStaticRequest net cache request).response.body = offlineHtml ∧
    containsText (handleStaticRequest net cache request).response.body offlineTitleTag ∧
    (handleStaticRequest net cache request).response.headers
      = [("Content-Type", "text/html")] := by
  have h1 : handleStaticRequest net cache request =
      { response := offlineHtmlResponse, cache := cache, fetched := [request.url] } := by
    simp [handleStaticRequest, hmiss, hfetch, hdoc]
  rw [h1]
  refine ⟨rfl, ⟨offlineHtmlTitlePre, offlineHtmlTitleSuf, ?_⟩, rfl⟩
  show offlineHtml = offlineHtmlTitlePre ++ offlineTitleTag ++ offlineHtmlTitleSuf
  rw [offlineHtml]

/-- Witness for C6 at a concrete offline network and empty cache. -/
theorem c6_witness :
    (handleStaticRequest netOffline [] sampleDocRequest).response.body = offlineHtml ∧
    containsText (handleStaticRequest netOffline [] sampleDocRequest).response.body
      offlineTitleTag ∧
    (handleStaticRequest netOffline [] sampleDocRequest).response.headers
      = [("Content-Type", "text/html")] :=
  c6_document_offline_page netOffline [] sampleDocRequest rfl rfl rfl

/-- Helper: a `cachePut` entry is found again under its key. -/
theorem cacheMatch_cachePut (c : Cache) (k : String) (r : Response) :
    cacheMatch (cachePut c k r) k = some r := by
  simp [cacheMatch, cachePut, List.lookup]

/-- C7: a sync event tagged `refresh-data` performs exactly one network
fetch, of the fixed endpoint; on an ok response a clone is stored in the
API partition under that fixed key and `DATA_UPDATED` is posted to every
client; on a thrown fetch the failure is swallowed: no store and no
broadcast. -/
theorem c7_sync_refresh_data
    (net : Network) (cache : Cache) (clientsList : List String) (tag : String)
    (htag : tag = "refresh-data") :
    (syncListener net cache clientsList tag).fetched = [pseEndpoint] ∧
    (∀ r : Response, net.fetchFn pseEndpoint = some r → r.ok = true →
      cacheMatch (syncListener net cache clientsList tag).cache pseEndpoint = some r.clone ∧
      (syncListener net cache clientsList tag).posted
        = clientsList.map (fun c => (c, dataUpdatedMessage))) ∧
    (net.fetchFn pseEndpoint = none →
      (syncListener net cache clientsList tag).cache = cache ∧
      (syncListener net cache clientsList tag).posted = []) := by
  subst htag
  have hred : syncListener net cache clientsList "refresh-data"
      = refreshDataInBackground net cache clientsList := by
    simp [syncListener]
  rw [hred]
  refine ⟨?_, ?_, ?_⟩
  · rcases h : net.fetchFn pseEndpoint with _ | r
    · simp [refreshDataInBackground, h]
    · by_cases hok : r.ok = true <;> simp [refreshDataInBackground, h, hok]
  · intro r hr hok
    simp [refreshDataInBackground, hr, hok, cacheMatch_cachePut]
  · intro hn
    simp [refreshDataInBackground, hn]

/-- Witness for C7 at a concrete always-ok network and one client page. -/
theorem c7_witness :
    (syncListener netAlwaysOk [] ["page"] "refresh-data").fetched = [pseEndpoint] ∧
    cacheMatch (syncListener netAlwaysOk [] ["page"] "refresh-data").cache pseEndpoint
      = some sampleOkResponse.clone ∧
    (syncListener netAlwaysOk [] ["page"] "refresh-data").posted
      = [("page", dataUpdatedMessage)] := by
  obtain ⟨h1, h2, -⟩ := c7_sync_refresh_data netAlwaysOk [] ["page"] "refresh-data" rfl
  obtain ⟨hc, hp⟩ := h2 sampleOkResponse rfl (by decide)
  exact ⟨h1, hc, hp⟩

/-- C8: on a notification click the notification is closed; for a click
event of the notifications this worker shows (whose actions are `open`
and `close`, plus the default empty action) any action other than
`close` opens a window to the payload URL, or to `/` when absent, and
the `close` action opens none. -/
theorem c8_notification_click
    (action : String) (dataUrl : Option String)
    (hvalid : action = "" ∨ action ∈ (pushOptions none none).actions.map NotificationAction.action) :
    (notificationClickListener action dataUrl).notificationClosed = true ∧
    (action ≠ "close" →
      (notificationClickListener action dataUrl).openedWindow = some (dataUrl.getD "/")) ∧
    (action = "close" →
      (notificationClickListener action dataUrl).openedWindow = none) := by
  have hcases : action = "" ∨ action = "open" ∨ action = "close" := by
    simpa [pushOptions] using hvalid
  rcases hcases with h | h | h <;> subst h
  · exact ⟨rfl, fun _ => rfl, fun hcon => absurd hcon (by decide)⟩
  · exact ⟨rfl, fun _ => rfl, fun hcon => absurd hcon (by decide)⟩
  · exact ⟨rfl, fun hcon => absurd rfl hcon, fun _ => rfl⟩

/-- Witness for C8 at the default (empty) action with no payload URL. -/
theorem c8_witness :
    (notificationClickListener "" none).notificationClosed = true ∧
    ("" ≠ "close" → (notificationClickListener "" none).openedWindow = some "/") ∧
    ("" = "close" → (notificationClickListener "" none).openedWindow = none) :=
  c8_notification_click "" none (Or.inl rfl)

/-- C9: a message whose data has type `SKIP_WAITING` makes the listener
invoke `skipWaiting`; a message of any other type does not. -/
theorem c9_message_skip_waiting (d : MessageData) :
    (d.type = "SKIP_WAITING" → (messageListener (some d)).skipWaitingCalled = true) ∧
    (d.type ≠ "SKIP_WAITING" → (messageListener (some d)).skipWaitingCalled = false) := by
  constructor
  · intro h
    simp [messageListener, h]
  · intro h
    simp [messageListener, h]

/-- Witness for C9: `SKIP_WAITING` triggers, `REQUEST_UPDATE` does not. -/
theorem c9_witness :
    (messageListener (some { type := "SKIP_WAITING" })).skipWaitingCalled = true ∧
    (messageListener (some { type := "REQUEST_UPDATE" })).skipWaitingCalled = false :=
  ⟨(c9_message_skip_waiting { type := "SKIP_WAITING" }).1 rfl,
   (c9_message_skip_waiting { type := "REQUEST_UPDATE" }).2 (by decide)⟩

/-- Helper: storing an ok response preserves the all-ok invariant. -/
theorem cacheAllOk_put (c : Cache) (k : String) (r : Response)
    (hinv : cacheAllOk c) (hok : r.ok = true) : cacheAllOk (cachePut c k r) := by
  intro e he
  rw [cachePut] at he
  rcases List.mem_cons.mp he with h | h
  · subst h
    exact hok
  · exact hinv e (List.mem_of_mem_filter h)

/-- Helper: in an all-ok partition every hit is an ok response. -/
theorem cacheAllOk_lookup (c : Cache) (k : String) (r : Response) :
    cacheAllOk c → cacheMatch c k = some r → r.ok = true := by
  induction c with
  | nil =>
      intro _ h
      simp [cacheMatch, List.lookup] at h
  | cons e tl ih =>
      intro hinv h
      obtain ⟨k', v⟩ := e
      by_cases hk : (k == k') = true
      · simp only [cacheMatch, List.lookup, hk] at h
        obtain rfl : v = r := by injection h
        exact hinv (k', v) (List.mem_cons_self _ _)
      · simp only [cacheMatch, List.lookup, Bool.not_eq_true] at h hk
        rw [hk] at h
        exact ih (fun e he => hinv e (List.mem_cons_of_mem _ he)) h

/-- C10: all three storing routines keep the partitions populated only
with responses that were ok at store time; a delivered non-ok network
response is returned to the caller unchanged and is never stored; and in
an all-ok partition no non-ok response can ever be served as a hit. -/
theorem c10_only_ok_responses_stored
    (net : Network) (cache : Cache) (request : Request) (clientsList : List String)
    (hinv : cacheAllOk cache) :
    (cacheAllOk (handleApiRequest net cache request.url).cache ∧
     cacheAllOk (handleStaticRequest net cache request).cache ∧
     cacheAllOk (refreshDataInBackground net cache clientsList).cache) ∧
    (∀ r : Response, net.fetchFn request.url = some r → r.ok = false →
      (handleApiRequest net cache request.url).response = r ∧
      (handleApiRequest net cache request.url).cache = cache ∧
      (cacheMatch cache request.url = none →
        (handleStaticRequest net cache request).response = r ∧
        (handleStaticRequest net cache request).cache = cache)) ∧
    (∀ (k : String) (r : Response), cacheMatch cache k = some r → r.ok = true) := by
  refine ⟨⟨?_, ?_, ?_⟩, ?_, ?_⟩
  · rcases h : net.fetchFn request.url with _ | r
    · have hc : (handleApiRequest net cache request.url).cache = cache := by
        rcases hm : cacheMatch cache request.url with _ | cr <;>
          simp [handleApiRequest, h, hm]
      rw [hc]
      exact hinv
    · by_cases hok : r.ok = true
      · have hc : (handleApiRequest net cache request.url).cache
            = cachePut cache request.url r.clone := by
          simp [handleApiRequest, h, hok]
        rw [hc]
        exact cacheAllOk_put _ _ _ hinv hok
      · have hc : (handleApiRequest net cache request.url).cache = cache := by
          simp [handleApiRequest, h, hok]
        rw [hc]
        exact hinv
  · rcases hm : cacheMatch cache request.url with _ | cr
    · rcases h : net.fetchFn request.url with _ | r
      · have hc : (handleStaticRequest net cache request).cache = cache := by
          by_cases hd : (request.destination == "document") = true <;>
            simp [handleStaticRequest, hm, h, hd]
        rw [hc]
        exact hinv
      · by_cases hok : r.ok = true
        · have hc : (handleStaticRequest net cache request).cache
              = cachePut cache request.url r.clone := by
            simp [handleStaticRequest, hm, h, hok]
          rw [hc]
          exact cacheAllOk_put _ _ _ hinv hok
        · have hc : (handleStaticRequest net cache request).cache = cache := by
            simp [handleStaticRequest, hm, h, hok]
          rw [hc]
          exact hinv
    · have hc : (handleStaticRequest net cache request).cache = cache := by
        simp [handleStaticRequest, hm]
      rw [hc]
      exact hinv
  · rcases h : net.fetchFn pseEndpoint with _ | r
    · have hc : (refreshDataInBackground net cache clientsList).cache = cache := by
        simp [refreshDataInBackground, h]
      rw [hc]
      exact hinv
    · by_cases hok : r.ok = true
      · have hc : (refreshDataInBackground net cache clientsList).cache
            = cachePut cache pseEndpoint r.clone := by
          simp [refreshDataInBackground, h, hok]
        rw [hc]
        exact cacheAllOk_put _ _ _ hinv hok
      · have hc : (refreshDataInBackground net cache clientsList).cache = cache := by
          simp [refreshDataInBackground, h, hok]
        rw [hc]
        exact hinv
  · intro r h hok
    refine ⟨?_, ?_, ?_⟩
    · simp [handleApiRequest, h, hok]
    · simp [handleApiRequest, h, hok]
    · intro hm
      constructor <;> simp [handleStaticRequest, hm, h, hok]
  · intro k r hm
    exact cacheAllOk_lookup cache k r hinv hm

/-- Witness for C10 at an empty partition and a network that delivers a
404 response: the 404 is echoed to the caller and nothing is stored. -/
theorem c10_witness :
    cacheAllOk [] ∧
    cacheAllOk (handleApiRequest netAlwaysNotFound [] sampleDocRequest.url).cache ∧
    (handleApiRequest netAlwaysNotFound [] sampleDocRequest.url).response
      = sampleNotFoundResponse ∧
    (handleApiRequest netAlwaysNotFound [] sampleDocRequest.url).cache = [] ∧
    (handleStaticRequest netAlwaysNotFound [] sampleDocRequest).response
      = sampleNotFoundResponse ∧
    (handleStaticRequest netAlwaysNotFound [] sampleDocRequest).cache = [] := by
  have hempty : cacheAllOk [] := by
    intro e he
    exact absurd he (List.not_mem_nil e)
  obtain ⟨⟨ha, -, -⟩, hb, -⟩ :=
    c10_only_ok_responses_stored netAlwaysNotFound [] sampleDocRequest [] hempty
  obtain ⟨h1, h2, h3⟩ := hb sampleNotFoundResponse rfl (by decide)
  obtain ⟨h4, h5⟩ := h3 rfl
  exact ⟨hempty, ha, h1, h2, h4, h5⟩

end SW
